import Mathlib

/-!
Verification of `minitorch/datasets.py`: six synthetic dataset generators
(`simple`, `diag`, `split`, `xor`, `circle`, `spiral`) producing labeled 2-D
point sets, plus a name registry.

Modelling conventions:
* Python `int` is `ℤ`; Python `range(N)` is `List.range N.toNat`
  (empty for negative `N`), `range(a, b)` is `List.range' a (b-a)`.
* Python floor division `//` is `Int.fdiv`.
* The process-wide random source `random.random()` is an explicit stream
  `r : ℕ → ℚ` of draws, consumed in call order (floats are rationals;
  decimal literals are embedded exactly).
* `spiral` uses `math.cos` / `math.sin`; it is embedded generically over a
  field `α` and the two transcendental functions `c s : α → α`, and the
  theorems about its geometry instantiate `α := ℝ`, `c := Real.cos`,
  `s := Real.sin`.  This keeps every definition computable.
* A Python function that raises no exception on its domain is embedded as a
  total function; the absence of an error path is then visible as the
  function returning an ordinary `Graph` on every input.
-/

namespace Minitorch

/-- The `Graph` dataclass: declared sample count `N`, point list `X`,
label list `y`. -/
structure Graph (α : Type) where
  N : ℤ
  X : List (α × α)
  y : List ℤ
deriving DecidableEq

/-- Python `make_pts(N)`: N points, each coordinate a fresh draw from the random
stream, consumed in call order (`x_1` then `x_2` per iteration). -/
def make_pts (N : ℤ) (r : ℕ → ℚ) : List (ℚ × ℚ) :=
  (List.range N.toNat).map fun i => (r (2 * i), r (2 * i + 1))

/-- Python `simple(N)`: label 1 iff `x_1 < 0.5`. -/
def simple (N : ℤ) (r : ℕ → ℚ) : Graph ℚ :=
  let X := make_pts N r
  ⟨N, X, X.map fun p => if p.1 < 1/2 then 1 else 0⟩

/-- Python `diag(N)`: label 1 iff `x_1 + x_2 < 0.5`. -/
def diag (N : ℤ) (r : ℕ → ℚ) : Graph ℚ :=
  let X := make_pts N r
  ⟨N, X, X.map fun p => if p.1 + p.2 < 1/2 then 1 else 0⟩

/-- Python `split(N)`: label 1 iff `x_1 < 0.2 or x_1 > 0.8`. -/
def split (N : ℤ) (r : ℕ → ℚ) : Graph ℚ :=
  let X := make_pts N r
  ⟨N, X, X.map fun p => if p.1 < 1/5 ∨ p.1 > 4/5 then 1 else 0⟩

/-- Python `xor(N)`: label 1 iff `(x_1 < 0.5 and x_2 > 0.5) or (x_1 > 0.5 and x_2 < 0.5)`. -/
def xor (N : ℤ) (r : ℕ → ℚ) : Graph ℚ :=
  let X := make_pts N r
  ⟨N, X, X.map fun p => if (p.1 < 1/2 ∧ p.2 > 1/2) ∨ (p.1 > 1/2 ∧ p.2 < 1/2) then 1 else 0⟩

/-- Python `circle(N)`: label 1 iff `(x_1-0.5)² + (x_2-0.5)² > 0.1` (written with
`x1*x1 + x2*x2` exactly as the source). -/
def circle (N : ℤ) (r : ℕ → ℚ) : Graph ℚ :=
  let X := make_pts N r
  ⟨N, X, X.map fun p =>
    if (p.1 - 1/2) * (p.1 - 1/2) + (p.2 - 1/2) * (p.2 - 1/2) > 1/10 then 1 else 0⟩

/-- The local `x(t) = t * math.cos(t) / 20.0` of `spiral`, generic in the
cosine function `c`. -/
def curveX {α : Type} [Field α] (c : α → α) (t : α) : α := t * c t / 20

/-- The local `y(t) = t * math.sin(t) / 20.0` of `spiral`, generic in the
sine function `s`. -/
def curveY {α : Type} [Field α] (s : α → α) (t : α) : α := t * s t / 20

/-- Python `spiral(N)`: two deterministic parametric arms.  `half = N // 2`
(Python floor division); both comprehensions run `i` over
`range(5, 5 + half)`; arm A is `(x(10*(i/half)) + 0.5, y(10*(i/half)) + 0.5)`,
arm B is `(y(-10*(i/half)) + 0.5, x(-10*(i/half)) + 0.5)`;
`y2 = [0]*half + [1]*half`. -/
def spiral {α : Type} [Field α] (c s : α → α) (N : ℤ) : Graph α :=
  ⟨N,
   ((List.range' 5 (Int.fdiv N 2).toNat).map fun (i : ℕ) =>
     (curveX c (10 * ((i : α) / ((Int.fdiv N 2 : ℤ) : α))) + 1/2,
      curveY s (10 * ((i : α) / ((Int.fdiv N 2 : ℤ) : α))) + 1/2)) ++
   ((List.range' 5 (Int.fdiv N 2).toNat).map fun (i : ℕ) =>
     (curveY s ((-10) * ((i : α) / ((Int.fdiv N 2 : ℤ) : α))) + 1/2,
      curveX c ((-10) * ((i : α) / ((Int.fdiv N 2 : ℤ) : α))) + 1/2)),
   List.replicate (Int.fdiv N 2).toNat 0 ++ List.replicate (Int.fdiv N 2).toNat 1⟩

/-- Tags for the six generator functions, the values of the registry dict. -/
inductive Gen : Type
  | simple | diag | split | xor | circle | spiral
deriving DecidableEq

/-- The module-level dict
`datasets = {'Simple': simple, ..., 'Spiral': spiral}` as an ordered
association list of name/function pairs. -/
def datasets : List (String × Gen) :=
  [("Simple", .simple), ("Diag", .diag), ("Split", .split),
   ("Xor", .xor), ("Circle", .circle), ("Spiral", .spiral)]

/-- Dict lookup `datasets[k]`: the first (only) binding of `k`, `none`
standing for a raised `KeyError`. -/
def lookupGen (k : String) : Option Gen :=
  (datasets.find? fun p => p.1 == k).map Prod.snd

/-- Interpretation of a registry tag as the generator function it names
(at `α := ℚ`; the geometric generators ignore `c`/`s`, `spiral` ignores the
random stream `r`). -/
def Gen.run : Gen → (ℕ → ℚ) → (ℚ → ℚ) → (ℚ → ℚ) → ℤ → Graph ℚ
  | .simple, r, _, _, N => Minitorch.simple N r
  | .diag, r, _, _, N => Minitorch.diag N r
  | .split, r, _, _, N => Minitorch.split N r
  | .xor, r, _, _, N => Minitorch.xor N r
  | .circle, r, _, _, N => Minitorch.circle N r
  | .spiral, _, c, s, N => Minitorch.spiral c s N

/-! ### Arithmetic helper lemmas about Python floor division by 2 -/

lemma fdiv_two (N : ℤ) : Int.fdiv N 2 = N / 2 :=
  Int.fdiv_eq_ediv N (by decide)

lemma fdiv_two_toNat_of_nonneg {N : ℤ} (h : 0 ≤ N) :
    (Int.fdiv N 2).toNat = N.toNat / 2 := by
  rw [fdiv_two]; omega

lemma fdiv_two_toNat_of_neg {N : ℤ} (h : N < 0) :
    (Int.fdiv N 2).toNat = 0 := by
  rw [fdiv_two]; omega

/-! ### Theorems -/

/-- C9: for `N = 0` and `N = 1` both comprehension ranges of `spiral` are
empty, so the division `i / (N // 2)` by `N // 2 = 0` is never evaluated and
`spiral` returns `Graph(N, [], [])` with no error. -/
theorem spiral_zero_one {α : Type} [Field α] (c s : α → α) :
    spiral c s 0 = ⟨0, [], []⟩ ∧ spiral c s 1 = ⟨1, [], []⟩ :=
  ⟨rfl, rfl⟩

/-- C10: for negative `N`, each geometric generator iterates an empty
`range(N)` and returns `Graph(N, [], [])` without raising, silently
violating the `len(X) == N` invariant (the declared `N` stays negative). -/
theorem geo_neg_silent (N : ℤ) (hN : N < 0) (r : ℕ → ℚ) :
    simple N r = ⟨N, [], []⟩ ∧ diag N r = ⟨N, [], []⟩ ∧
    split N r = ⟨N, [], []⟩ ∧ xor N r = ⟨N, [], []⟩ ∧
    circle N r = ⟨N, [], []⟩ ∧
    ((simple N r).X.length : ℤ) ≠ (simple N r).N := by
  have h0 : N.toNat = 0 := Int.toNat_of_nonpos hN.le
  refine ⟨?_, ?_, ?_, ?_, ?_, ?_⟩ <;>
    simp [simple, diag, split, xor, circle, make_pts, h0]
  omega

/-- Witness for C10 at `N = -1`. -/
theorem geo_neg_silent_witness :
    (-1 : ℤ) < 0 ∧
    (simple (-1) (fun _ => 0) = ⟨-1, [], []⟩ ∧ diag (-1) (fun _ => 0) = ⟨-1, [], []⟩ ∧
     split (-1) (fun _ => 0) = ⟨-1, [], []⟩ ∧ xor (-1) (fun _ => 0) = ⟨-1, [], []⟩ ∧
     circle (-1) (fun _ => 0) = ⟨-1, [], []⟩ ∧
     ((simple (-1) (fun _ => 0)).X.length : ℤ) ≠ (simple (-1) (fun _ => 0)).N) :=
  ⟨by decide, geo_neg_silent (-1) (by decide) (fun _ => 0)⟩

/-- C5 counterexample: `simple(-1)` does not propagate any error — it
returns the ordinary value `Graph(-1, [], [])`, a silent partial result. -/
theorem simple_neg_one_no_error :
    simple (-1) (fun _ => 0) = ⟨-1, [], []⟩ := rfl

/-- C5 (amended): for every negative `N` all six generators return
`Graph(N, [], [])` normally; no error is raised and the empty result is
silent. -/
theorem all_neg_silent {α : Type} [Field α] (N : ℤ) (hN : N < 0)
    (r : ℕ → ℚ) (c s : α → α) :
    simple N r = ⟨N, [], []⟩ ∧ diag N r = ⟨N, [], []⟩ ∧
    split N r = ⟨N, [], []⟩ ∧ xor N r = ⟨N, [], []⟩ ∧
    circle N r = ⟨N, [], []⟩ ∧ spiral c s N = ⟨N, [], []⟩ := by
  have h0 : N.toNat = 0 := Int.toNat_of_nonpos hN.le
  have h1 : (Int.fdiv N 2).toNat = 0 := fdiv_two_toNat_of_neg hN
  refine ⟨?_, ?_, ?_, ?_, ?_, ?_⟩ <;>
    simp [simple, diag, split, xor, circle, spiral, make_pts, h0, h1]

/-- Witness for the amended C5 at `N = -1`, `α := ℚ`. -/
theorem all_neg_silent_witness :
    (-1 : ℤ) < 0 ∧
    (simple (-1) (fun _ => 0) = ⟨-1, [], []⟩ ∧ diag (-1) (fun _ => 0) = ⟨-1, [], []⟩ ∧
     split (-1) (fun _ => 0) = ⟨-1, [], []⟩ ∧ xor (-1) (fun _ => 0) = ⟨-1, [], []⟩ ∧
     circle (-1) (fun _ => 0) = ⟨-1, [], []⟩ ∧
     spiral (fun t : ℚ => t) (fun t => t) (-1) = ⟨-1, [], []⟩) :=
  ⟨by decide, all_neg_silent (-1) (by decide) (fun _ => 0) (fun t : ℚ => t) (fun t => t)⟩

lemma mem_map_if01 {β : Type} (g : β → Prop) [DecidablePred g] (L : List β) :
    ∀ l ∈ L.map (fun p => if g p then (1 : ℤ) else 0), l = 0 ∨ l = 1 := by
  intro l hl
  rcases List.mem_map.1 hl with ⟨p, _, rfl⟩
  by_cases h : g p <;> simp [h]

/-- C2: every geometric generator returns as many points as labels, equal to
the requested and declared `N`; `spiral` returns `2*(N // 2)` points and
labels, which matches the declared `N` exactly when `N` is even. -/
theorem gens_length (N : ℤ) (hN : 0 ≤ N) (r : ℕ → ℚ)
    {α : Type} [Field α] (c s : α → α) :
    (((simple N r).X.length : ℤ) = N ∧ ((simple N r).y.length : ℤ) = N ∧
      (simple N r).N = N) ∧
    (((diag N r).X.length : ℤ) = N ∧ ((diag N r).y.length : ℤ) = N ∧
      (diag N r).N = N) ∧
    (((split N r).X.length : ℤ) = N ∧ ((split N r).y.length : ℤ) = N ∧
      (split N r).N = N) ∧
    (((xor N r).X.length : ℤ) = N ∧ ((xor N r).y.length : ℤ) = N ∧
      (xor N r).N = N) ∧
    (((circle N r).X.length : ℤ) = N ∧ ((circle N r).y.length : ℤ) = N ∧
      (circle N r).N = N) ∧
    ((spiral c s N).X.length = 2 * (Int.fdiv N 2).toNat ∧
     (spiral c s N).y.length = 2 * (Int.fdiv N 2).toNat ∧
     (spiral c s N).N = N ∧
     ((2 * (Int.fdiv N 2).toNat : ℤ) = N ↔ Even N)) := by
  have ht : (N.toNat : ℤ) = N := Int.toNat_of_nonneg hN
  refine ⟨⟨?_, ?_, rfl⟩, ⟨?_, ?_, rfl⟩, ⟨?_, ?_, rfl⟩, ⟨?_, ?_, rfl⟩,
      ⟨?_, ?_, rfl⟩, ?_, ?_, rfl, ?_⟩
  · simp [simple, make_pts, ht]
  · simp [simple, make_pts, ht]
  · simp [diag, make_pts, ht]
  · simp [diag, make_pts, ht]
  · simp [split, make_pts, ht]
  · simp [split, make_pts, ht]
  · simp [xor, make_pts, ht]
  · simp [xor, make_pts, ht]
  · simp [circle, make_pts, ht]
  · simp [circle, make_pts, ht]
  · simp only [spiral, List.length_append, List.length_map, List.length_range']
    omega
  · simp only [spiral, List.length_append, List.length_replicate]
    omega
  · rw [Int.even_iff, fdiv_two]; omega

/-- Witness for C2 at `N = 3`, constant random stream, `α := ℚ`. -/
theorem gens_length_witness :
    0 ≤ (3 : ℤ) ∧
    ((((simple 3 (fun _ => 0)).X.length : ℤ) = 3 ∧
      ((simple 3 (fun _ => 0)).y.length : ℤ) = 3 ∧ (simple 3 (fun _ => 0)).N = 3) ∧
     (((diag 3 (fun _ => 0)).X.length : ℤ) = 3 ∧
      ((diag 3 (fun _ => 0)).y.length : ℤ) = 3 ∧ (diag 3 (fun _ => 0)).N = 3) ∧
     (((split 3 (fun _ => 0)).X.length : ℤ) = 3 ∧
      ((split 3 (fun _ => 0)).y.length : ℤ) = 3 ∧ (split 3 (fun _ => 0)).N = 3) ∧
     (((xor 3 (fun _ => 0)).X.length : ℤ) = 3 ∧
      ((xor 3 (fun _ => 0)).y.length : ℤ) = 3 ∧ (xor 3 (fun _ => 0)).N = 3) ∧
     (((circle 3 (fun _ => 0)).X.length : ℤ) = 3 ∧
      ((circle 3 (fun _ => 0)).y.length : ℤ) = 3 ∧ (circle 3 (fun _ => 0)).N = 3) ∧
     ((spiral (fun t : ℚ => t) (fun t => t) 3).X.length = 2 * (Int.fdiv 3 2).toNat ∧
      (spiral (fun t : ℚ => t) (fun t => t) 3).y.length = 2 * (Int.fdiv 3 2).toNat ∧
      (spiral (fun t : ℚ => t) (fun t => t) 3).N = 3 ∧
      ((2 * (Int.fdiv 3 2).toNat : ℤ) = 3 ↔ Even (3 : ℤ)))) :=
  ⟨by decide, gens_length 3 (by decide) (fun _ => 0) (fun t : ℚ => t) (fun t => t)⟩

/-- C4: for every in-range index, each geometric generator's label is the
fixed strict-inequality predicate evaluated on the corresponding point
(1 when it holds, 0 otherwise), and every label is 0 or 1. -/
theorem gens_labels (N : ℤ) (hN : 0 ≤ N) (i : ℕ) (hi : (i : ℤ) < N) (r : ℕ → ℚ) :
    ((simple N r).y[i]? =
      (simple N r).X[i]?.map (fun p => if p.1 < 1/2 then (1 : ℤ) else 0)) ∧
    ((diag N r).y[i]? =
      (diag N r).X[i]?.map (fun p => if p.1 + p.2 < 1/2 then (1 : ℤ) else 0)) ∧
    ((split N r).y[i]? =
      (split N r).X[i]?.map (fun p => if p.1 < 1/5 ∨ p.1 > 4/5 then (1 : ℤ) else 0)) ∧
    ((xor N r).y[i]? =
      (xor N r).X[i]?.map
        (fun p => if (p.1 < 1/2 ∧ p.2 > 1/2) ∨ (p.1 > 1/2 ∧ p.2 < 1/2) then (1 : ℤ) else 0)) ∧
    ((circle N r).y[i]? =
      (circle N r).X[i]?.map
        (fun p => if (p.1 - 1/2) * (p.1 - 1/2) + (p.2 - 1/2) * (p.2 - 1/2) > 1/10
          then (1 : ℤ) else 0)) ∧
    (∀ l ∈ (simple N r).y, l = 0 ∨ l = 1) ∧
    (∀ l ∈ (diag N r).y, l = 0 ∨ l = 1) ∧
    (∀ l ∈ (split N r).y, l = 0 ∨ l = 1) ∧
    (∀ l ∈ (xor N r).y, l = 0 ∨ l = 1) ∧
    (∀ l ∈ (circle N r).y, l = 0 ∨ l = 1) := by
  refine ⟨?_, ?_, ?_, ?_, ?_, ?_, ?_, ?_, ?_, ?_⟩
  · simp [simple, List.getElem?_map]
  · simp [diag, List.getElem?_map]
  · simp [split, List.getElem?_map]
  · simp [xor, List.getElem?_map]
  · simp [circle, List.getElem?_map]
  · exact mem_map_if01 (fun p => p.1 < 1/2) (make_pts N r)
  · exact mem_map_if01 (fun p => p.1 + p.2 < 1/2) (make_pts N r)
  · exact mem_map_if01 (fun p => p.1 < 1/5 ∨ p.1 > 4/5) (make_pts N r)
  · exact mem_map_if01 (fun p => (p.1 < 1/2 ∧ p.2 > 1/2) ∨ (p.1 > 1/2 ∧ p.2 < 1/2))
      (make_pts N r)
  · exact mem_map_if01
      (fun p => (p.1 - 1/2) * (p.1 - 1/2) + (p.2 - 1/2) * (p.2 - 1/2) > 1/10)
      (make_pts N r)

/-- Witness for C4 at `N = 1`, `i = 0`, constant random stream. -/
theorem gens_labels_witness :
    0 ≤ (1 : ℤ) ∧ ((0 : ℕ) : ℤ) < 1 ∧
    (((simple 1 (fun _ => 0)).y[(0 : ℕ)]? =
       (simple 1 (fun _ => 0)).X[(0 : ℕ)]?.map
         (fun p => if p.1 < 1/2 then (1 : ℤ) else 0)) ∧
     ((diag 1 (fun _ => 0)).y[(0 : ℕ)]? =
       (diag 1 (fun _ => 0)).X[(0 : ℕ)]?.map
         (fun p => if p.1 + p.2 < 1/2 then (1 : ℤ) else 0)) ∧
     ((split 1 (fun _ => 0)).y[(0 : ℕ)]? =
       (split 1 (fun _ => 0)).X[(0 : ℕ)]?.map
         (fun p => if p.1 < 1/5 ∨ p.1 > 4/5 then (1 : ℤ) else 0)) ∧
     ((xor 1 (fun _ => 0)).y[(0 : ℕ)]? =
       (xor 1 (fun _ => 0)).X[(0 : ℕ)]?.map
         (fun p => if (p.1 < 1/2 ∧ p.2 > 1/2) ∨ (p.1 > 1/2 ∧ p.2 < 1/2)
           then (1 : ℤ) else 0)) ∧
     ((circle 1 (fun _ => 0)).y[(0 : ℕ)]? =
       (circle 1 (fun _ => 0)).X[(0 : ℕ)]?.map
         (fun p => if (p.1 - 1/2) * (p.1 - 1/2) + (p.2 - 1/2) * (p.2 - 1/2) > 1/10
           then (1 : ℤ) else 0)) ∧
     (∀ l ∈ (simple 1 (fun _ => 0)).y, l = 0 ∨ l = 1) ∧
     (∀ l ∈ (diag 1 (fun _ => 0)).y, l = 0 ∨ l = 1) ∧
     (∀ l ∈ (split 1 (fun _ => 0)).y, l = 0 ∨ l = 1) ∧
     (∀ l ∈ (xor 1 (fun _ => 0)).y, l = 0 ∨ l = 1) ∧
     (∀ l ∈ (circle 1 (fun _ => 0)).y, l = 0 ∨ l = 1)) :=
  ⟨by decide, by decide, gens_labels 1 (by decide) 0 (by decide) (fun _ => 0)⟩

/-- C8: `spiral` consumes no randomness, so two calls through the registry
with different random streams return identical Datasets: same `N` field,
same `X` sequence, same `y` sequence. -/
theorem spiral_deterministic (c s : ℚ → ℚ) (N : ℤ) (r₁ r₂ : ℕ → ℚ) :
    Gen.run Gen.spiral r₁ c s N = Gen.run Gen.spiral r₂ c s N ∧
    (Gen.run Gen.spiral r₁ c s N).N = (Gen.run Gen.spiral r₂ c s N).N ∧
    (Gen.run Gen.spiral r₁ c s N).X = (Gen.run Gen.spiral r₂ c s N).X ∧
    (Gen.run Gen.spiral r₁ c s N).y = (Gen.run Gen.spiral r₂ c s N).y :=
  ⟨rfl, rfl, rfl, rfl⟩

/-- C6: the registry maps exactly the six names to the corresponding
generators (each tag runs the generator function of the same name), and
lookup of any other name fails (`none`, a raised `KeyError`). -/
theorem registry_lookup (k : String)
    (hk : k ∉ ["Simple", "Diag", "Split", "Xor", "Circle", "Spiral"]) :
    lookupGen "Simple" = some Gen.simple ∧ lookupGen "Diag" = some Gen.diag ∧
    lookupGen "Split" = some Gen.split ∧ lookupGen "Xor" = some Gen.xor ∧
    lookupGen "Circle" = some Gen.circle ∧ lookupGen "Spiral" = some Gen.spiral ∧
    lookupGen k = none ∧
    (∀ r c s N, Gen.run Gen.simple r c s N = simple N r) ∧
    (∀ r c s N, Gen.run Gen.diag r c s N = diag N r) ∧
    (∀ r c s N, Gen.run Gen.split r c s N = split N r) ∧
    (∀ r c s N, Gen.run Gen.xor r c s N = xor N r) ∧
    (∀ r c s N, Gen.run Gen.circle r c s N = circle N r) ∧
    (∀ r c s N, Gen.run Gen.spiral r c s N = spiral c s N) := by
  simp only [List.mem_cons, List.not_mem_nil, or_false] at hk
  push_neg at hk
  obtain ⟨h1, h2, h3, h4, h5, h6⟩ := hk
  refine ⟨rfl, rfl, rfl, rfl, rfl, rfl, ?_,
    fun _ _ _ _ => rfl, fun _ _ _ _ => rfl, fun _ _ _ _ => rfl,
    fun _ _ _ _ => rfl, fun _ _ _ _ => rfl, fun _ _ _ _ => rfl⟩
  simp only [lookupGen, datasets, List.find?]
  have b1 : ("Simple" == k) = false := by simpa using fun h => h1 h.symm
  have b2 : ("Diag" == k) = false := by simpa using fun h => h2 h.symm
  have b3 : ("Split" == k) = false := by simpa using fun h => h3 h.symm
  have b4 : ("Xor" == k) = false := by simpa using fun h => h4 h.symm
  have b5 : ("Circle" == k) = false := by simpa using fun h => h5 h.symm
  have b6 : ("Spiral" == k) = false := by simpa using fun h => h6 h.symm
  simp [b1, b2, b3, b4, b5, b6]

/-- Witness for C6 with the unknown name "Banana". -/
theorem registry_lookup_witness :
    "Banana" ∉ ["Simple", "Diag", "Split", "Xor", "Circle", "Spiral"] ∧
    (lookupGen "Simple" = some Gen.simple ∧ lookupGen "Diag" = some Gen.diag ∧
     lookupGen "Split" = some Gen.split ∧ lookupGen "Xor" = some Gen.xor ∧
     lookupGen "Circle" = some Gen.circle ∧ lookupGen "Spiral" = some Gen.spiral ∧
     lookupGen "Banana" = none ∧
     (∀ r c s N, Gen.run Gen.simple r c s N = simple N r) ∧
     (∀ r c s N, Gen.run Gen.diag r c s N = diag N r) ∧
     (∀ r c s N, Gen.run Gen.split r c s N = split N r) ∧
     (∀ r c s N, Gen.run Gen.xor r c s N = xor N r) ∧
     (∀ r c s N, Gen.run Gen.circle r c s N = circle N r) ∧
     (∀ r c s N, Gen.run Gen.spiral r c s N = spiral c s N)) :=
  ⟨by decide, registry_lookup "Banana" (by decide)⟩

/-- C1: for even `N ≥ 2`, `spiral(N).X` is the Arm A points
`(t·cos t/20 + 0.5, t·sin t/20 + 0.5)` for `i ∈ [5, 5 + N//2)` with
`t = 10·(i/(N//2))`, followed by the Arm B points
`(curveY(-t) + 0.5, curveX(-t) + 0.5)` over the same range, and `spiral(N).y`
is `N//2` zeros followed by `N//2` ones. -/
theorem spiral_even_structure (N : ℤ) (h2 : 2 ≤ N) (he : Even N) :
    (spiral Real.cos Real.sin N).X =
      ((List.range' 5 (Int.fdiv N 2).toNat).map fun (i : ℕ) =>
        ((10 * ((i : ℝ) / ((Int.fdiv N 2 : ℤ) : ℝ))) *
            Real.cos (10 * ((i : ℝ) / ((Int.fdiv N 2 : ℤ) : ℝ))) / 20 + 1/2,
         (10 * ((i : ℝ) / ((Int.fdiv N 2 : ℤ) : ℝ))) *
            Real.sin (10 * ((i : ℝ) / ((Int.fdiv N 2 : ℤ) : ℝ))) / 20 + 1/2)) ++
      ((List.range' 5 (Int.fdiv N 2).toNat).map fun (i : ℕ) =>
        (curveY Real.sin (-(10 * ((i : ℝ) / ((Int.fdiv N 2 : ℤ) : ℝ)))) + 1/2,
         curveX Real.cos (-(10 * ((i : ℝ) / ((Int.fdiv N 2 : ℤ) : ℝ)))) + 1/2)) ∧
    (spiral Real.cos Real.sin N).y =
      List.replicate (Int.fdiv N 2).toNat 0 ++ List.replicate (Int.fdiv N 2).toNat 1 := by
  refine ⟨?_, rfl⟩
  simp only [spiral, curveX, curveY, neg_mul]

/-- Witness for C1 at `N = 2`. -/
theorem spiral_even_structure_witness :
    2 ≤ (2 : ℤ) ∧ Even (2 : ℤ) ∧
    ((spiral Real.cos Real.sin 2).X =
      ((List.range' 5 (Int.fdiv 2 2).toNat).map fun (i : ℕ) =>
        ((10 * ((i : ℝ) / ((Int.fdiv 2 2 : ℤ) : ℝ))) *
            Real.cos (10 * ((i : ℝ) / ((Int.fdiv 2 2 : ℤ) : ℝ))) / 20 + 1/2,
         (10 * ((i : ℝ) / ((Int.fdiv 2 2 : ℤ) : ℝ))) *
            Real.sin (10 * ((i : ℝ) / ((Int.fdiv 2 2 : ℤ) : ℝ))) / 20 + 1/2)) ++
      ((List.range' 5 (Int.fdiv 2 2).toNat).map fun (i : ℕ) =>
        (curveY Real.sin (-(10 * ((i : ℝ) / ((Int.fdiv 2 2 : ℤ) : ℝ)))) + 1/2,
         curveX Real.cos (-(10 * ((i : ℝ) / ((Int.fdiv 2 2 : ℤ) : ℝ)))) + 1/2)) ∧
     (spiral Real.cos Real.sin 2).y =
      List.replicate (Int.fdiv 2 2).toNat 0 ++ List.replicate (Int.fdiv 2 2).toNat 1) :=
  ⟨by norm_num, ⟨1, rfl⟩, spiral_even_structure 2 (by norm_num) ⟨1, rfl⟩⟩

lemma spiral_ten_head :
    (spiral Real.cos Real.sin 10).X.head?.map Prod.fst =
      some (10 * Real.cos 10 / 20 + 1/2) := by
  have h2 : ((Int.fdiv 10 2 : ℤ) : ℝ) = 5 := by
    rw [show Int.fdiv 10 2 = 5 from rfl]; norm_num
  simp only [spiral, curveX, curveY, h2,
    show (Int.fdiv 10 2).toNat = 5 from rfl,
    show List.range' 5 5 = [5, 6, 7, 8, 9] from rfl,
    List.map_cons, List.cons_append, List.head?_cons, Option.map_some']
  norm_num

/-- C3 counterexample: `spiral(10)`'s first point does NOT have first
coordinate `cos(10)/20 + 0.5`; the parameter factor `t = 10` multiplies the
cosine, so the claimed value is off by a factor of 10 in the cosine term
(and `cos 10 ≠ 0`, so the two values really differ). -/
theorem spiral_ten_first_coord_counterexample :
    ¬ ((spiral Real.cos Real.sin 10).X.head?.map Prod.fst =
        some (Real.cos 10 / 20 + 1/2)) := by
  rw [spiral_ten_head]
  intro h
  have h1 : 10 * Real.cos 10 / 20 + 1/2 = Real.cos 10 / 20 + 1/2 :=
    Option.some.inj h
  have hπ₁ : (3.14 : ℝ) < Real.pi := Real.pi_gt_d2
  have hπ₂ : Real.pi < 3.15 := Real.pi_lt_d2
  have hx : Real.cos (10 - 2 * Real.pi) < 0 :=
    Real.cos_neg_of_pi_div_two_lt_of_lt (by linarith) (by linarith)
  rw [Real.cos_sub_two_pi] at hx
  linarith

/-- C3 (amended): `spiral(10)` produces exactly 10 points, the first 5
labeled 0 and the last 5 labeled 1, and its first point has first
coordinate `10·cos(10)/20 + 0.5` (the parameter `t = 10` multiplies the
cosine; the claimed `cos(10)/20 + 0.5` dropped that factor). -/
theorem spiral_ten_structure :
    (spiral Real.cos Real.sin 10).X.length = 10 ∧
    (spiral Real.cos Real.sin 10).y = [0, 0, 0, 0, 0, 1, 1, 1, 1, 1] ∧
    (spiral Real.cos Real.sin 10).X.head?.map Prod.fst =
      some (10 * Real.cos 10 / 20 + 1/2) := by
  refine ⟨?_, rfl, spiral_ten_head⟩
  simp only [spiral, List.length_append, List.length_map, List.length_range']
  rfl

/-- C7: for even `N ≥ 2`, the second half of `spiral(N).X` is Arm A's
parametrization with coordinate roles swapped and `t` negated
(`(curveY(-t) + 0.5, curveX(-t) + 0.5)`), and it is not pointwise equal to
the first half: the two arms are genuinely different point sequences. -/
theorem spiral_arms_not_copies (N : ℤ) (h2 : 2 ≤ N) (he : Even N) :
    ((spiral Real.cos Real.sin N).X.drop (Int.fdiv N 2).toNat =
      (List.range' 5 (Int.fdiv N 2).toNat).map fun (i : ℕ) =>
        (curveY Real.sin (-(10 * ((i : ℝ) / ((Int.fdiv N 2 : ℤ) : ℝ)))) + 1/2,
         curveX Real.cos (-(10 * ((i : ℝ) / ((Int.fdiv N 2 : ℤ) : ℝ)))) + 1/2)) ∧
    (spiral Real.cos Real.sin N).X.drop (Int.fdiv N 2).toNat ≠
      (spiral Real.cos Real.sin N).X.take (Int.fdiv N 2).toNat := by
  have hhalf : 1 ≤ Int.fdiv N 2 := by rw [fdiv_two]; omega
  have hk1 : 1 ≤ (Int.fdiv N 2).toNat := by rw [fdiv_two] at hhalf ⊢; omega
  have hdrop : (spiral Real.cos Real.sin N).X.drop (Int.fdiv N 2).toNat =
      (List.range' 5 (Int.fdiv N 2).toNat).map fun (i : ℕ) =>
        (curveY Real.sin ((-10) * ((i : ℝ) / ((Int.fdiv N 2 : ℤ) : ℝ))) + 1/2,
         curveX Real.cos ((-10) * ((i : ℝ) / ((Int.fdiv N 2 : ℤ) : ℝ))) + 1/2) := by
    simp only [spiral]
    exact List.drop_left' (by rw [List.length_map, List.length_range'])
  have htake : (spiral Real.cos Real.sin N).X.take (Int.fdiv N 2).toNat =
      (List.range' 5 (Int.fdiv N 2).toNat).map fun (i : ℕ) =>
        (curveX Real.cos (10 * ((i : ℝ) / ((Int.fdiv N 2 : ℤ) : ℝ))) + 1/2,
         curveY Real.sin (10 * ((i : ℝ) / ((Int.fdiv N 2 : ℤ) : ℝ))) + 1/2) := by
    simp only [spiral]
    exact List.take_left' (by rw [List.length_map, List.length_range'])
  constructor
  · rw [hdrop]
    simp only [neg_mul]
  · rw [hdrop, htake]
    intro heq
    obtain ⟨m, hm⟩ : ∃ m, (Int.fdiv N 2).toNat = m + 1 := ⟨(Int.fdiv N 2).toNat - 1, by omega⟩
    rw [hm, List.range'_succ, List.map_cons, List.map_cons, List.cons.injEq] at heq
    obtain ⟨hhead, -⟩ := heq
    rw [Prod.mk.injEq] at hhead
    obtain ⟨e1, e2⟩ := hhead
    set q : ℝ := (5 : ℕ) / ((Int.fdiv N 2 : ℤ) : ℝ) with hq
    have hhr : (1 : ℝ) ≤ ((Int.fdiv N 2 : ℤ) : ℝ) := by exact_mod_cast hhalf
    have hqpos : 0 < q := by
      rw [hq]
      apply div_pos _ (by linarith)
      norm_num
    simp only [curveX, curveY, neg_mul, mul_neg, neg_neg,
      Real.sin_neg, Real.cos_neg] at e1 e2
    have hc0 : q * Real.cos (10 * q) = 0 := by linarith
    have hs0 : q * Real.sin (10 * q) = 0 := by linarith
    have hc : Real.cos (10 * q) = 0 := by
      rcases mul_eq_zero.1 hc0 with h | h
      · exact absurd h (ne_of_gt hqpos)
      · exact h
    have hs : Real.sin (10 * q) = 0 := by
      rcases mul_eq_zero.1 hs0 with h | h
      · exact absurd h (ne_of_gt hqpos)
      · exact h
    have hpyth := Real.sin_sq_add_cos_sq (10 * q)
    rw [hc, hs] at hpyth
    norm_num at hpyth

/-- Witness for C7 at `N = 4`. -/
theorem spiral_arms_not_copies_witness :
    2 ≤ (4 : ℤ) ∧ Even (4 : ℤ) ∧
    (((spiral Real.cos Real.sin 4).X.drop (Int.fdiv 4 2).toNat =
      (List.range' 5 (Int.fdiv 4 2).toNat).map fun (i : ℕ) =>
        (curveY Real.sin (-(10 * ((i : ℝ) / ((Int.fdiv 4 2 : ℤ) : ℝ)))) + 1/2,
         curveX Real.cos (-(10 * ((i : ℝ) / ((Int.fdiv 4 2 : ℤ) : ℝ)))) + 1/2)) ∧
     (spiral Real.cos Real.sin 4).X.drop (Int.fdiv 4 2).toNat ≠
      (spiral Real.cos Real.sin 4).X.take (Int.fdiv 4 2).toNat) :=
  ⟨by norm_num, ⟨2, rfl⟩, spiral_arms_not_copies 4 (by norm_num) ⟨2, rfl⟩⟩

end Minitorch
